import Mathlib

/-!
Verification of the MQT Bench device-calibration import subsystem
(`src/mqt/bench/devices/{provider,ibm,ibm_open_access,oqc}.py`).

Python dictionaries are embedded as association lists (`List (κ × α)`) with
Python's insertion-order semantics: assigning to an existing key overwrites in
place, assigning to a fresh key appends.  Python floats are embedded as exact
rationals `ℚ` (the importers only ever subtract from 1 and scale by the decimal
constants 1e-6 / 1e-9, so the arithmetic of interest is exact decimal scaling).
Fallible operations (`KeyError` / `IndexError` on dict/list access) are embedded
in the `Option` monad.
-/

set_option autoImplicit false

universe u v

/-- Python `d[k] = v` on a dict embedded as an association list: overwrite the
first entry with key `k` in place, or append `(k, v)` when no entry exists. -/
def dictSet {κ : Type u} {α : Type v} [BEq κ] : List (κ × α) → κ → α → List (κ × α)
  | [], k, v => [(k, v)]
  | (k0, v0) :: rest, k, v =>
    if k0 == k then (k0, v) :: rest else (k0, v0) :: dictSet rest k v

/-- Python `d[k] = f (d[k])` where a missing key `k` raises `KeyError`:
update the entry at `k` or fail. -/
def dictUpdate {κ : Type u} {α : Type v} [BEq κ] :
    List (κ × α) → κ → (α → α) → Option (List (κ × α))
  | [], _, _ => none
  | (k0, v0) :: rest, k, f =>
    if k0 == k then some ((k0, f v0) :: rest)
    else (dictUpdate rest k f).map (fun l => (k0, v0) :: l)

/-- Python
`if k not in d: d[k] = {}` followed by `d[k][g] = v`
on a dict of dicts: upsert the inner entry `g ↦ v` under key `k`. -/
def dictSetNested {κ : Type u} [BEq κ] :
    List (κ × List (String × ℚ)) → κ → String → ℚ → List (κ × List (String × ℚ))
  | [], k, g, v => [(k, [(g, v)])]
  | (k0, m) :: rest, k, g, v =>
    if k0 == k then (k0, dictSet m g v) :: rest else (k0, m) :: dictSetNested rest k g v

/-- A loop `for k in keys: table[k] = f(k)` populating a fresh dict, where
computing `f k` may raise (`KeyError` on a missing properties entry): the
resulting dict holds the keys in loop order, or the whole import fails. -/
def assocMapM {κ : Type u} {α : Type v} (f : κ → Option α) : List κ → Option (List (κ × α))
  | [] => some []
  | k :: ks => (f k).bind (fun v => (assocMapM f ks).map (fun rest => (k, v) :: rest))

/-- The loop `for q in range(n): table[q] = f(q)`. -/
def tableFor {α : Type u} (n : Nat) (f : Nat → Option α) : Option (List (Nat × α)) :=
  assocMapM f (List.range n)

/-- The loop `for q1, q2 in edges: table[(q1, q2)] = f(q1, q2)`.  When the same
edge occurs twice in `connectivity`, Python keeps a single entry (the later
assignment overwrites, with the identical recomputed value) while this
embedding keeps both identical entries; `List.lookup` agrees with the Python
dict on every key. -/
def edgeTableFor {α : Type u} (edges : List (Nat × Nat)) (f : Nat → Nat → Option α) :
    Option (List ((Nat × Nat) × α)) :=
  assocMapM (fun e => f e.1 e.2) edges

/-- Modelled from the spec: `DeviceCalibration` (file `calibration.py`, not part
of the shown sources) is a plain record of per-qubit and per-edge calibration
tables, all empty at construction (§3 "CalibrationRecord"). -/
structure DeviceCalibration where
  t1 : List (Nat × ℚ) := []
  t2 : List (Nat × ℚ) := []
  readout_fidelity : List (Nat × ℚ) := []
  readout_duration : List (Nat × ℚ) := []
  single_qubit_gate_fidelity : List (Nat × List (String × ℚ)) := []
  single_qubit_gate_duration : List (Nat × List (String × ℚ)) := []
  two_qubit_gate_fidelity : List ((Nat × Nat) × List (String × ℚ)) := []
  two_qubit_gate_duration : List ((Nat × Nat) × List (String × ℚ)) := []
  deriving DecidableEq

/-- Modelled from the spec: `Device` (file `device.py`, not part of the shown
sources) is a plain record holding name, qubit count, basis gates, coupling map
and the attached calibration (§3 "Device"). -/
structure Device where
  name : String
  num_qubits : Nat
  basis_gates : List String
  coupling_map : List (Nat × Nat)
  calibration : DeviceCalibration
  deriving DecidableEq

/-- Access `table[key][gate]` in a nested gate table. -/
def gateVal {κ : Type u} [BEq κ] (table : List (κ × List (String × ℚ))) (key : κ)
    (gate : String) : Option ℚ :=
  (table.lookup key).bind (fun m => m.lookup gate)

/-- The dict key `f"\x7bq1\x7d_\x7bq2\x7d"` used by both IBM file formats. -/
def edgeKey (q1 q2 : Nat) : String :=
  toString q1 ++ "_" ++ toString q2

/-- `QubitPropertiesIBM` (ibm.py lines 19-30): the per-qubit property block of
an IBM calibration file.  `eCX`/`tCX` are dicts keyed by `edgeKey`. -/
structure QubitPropertiesIBM where
  T1 : ℚ
  T2 : ℚ
  eRO : ℚ
  tRO : ℚ
  eID : ℚ
  eSX : ℚ
  eX : ℚ
  eCX : List (String × ℚ)
  tCX : List (String × ℚ)
  deriving DecidableEq

/-- `QubitPropertiesOpenAccess` (ibm.py lines 33-44) and the identical
`QubitProperties` of ibm_open_access.py (lines 17-28): the per-qubit property
block of an open-access IBM calibration file, with `eECR`/`tECR` dicts. -/
structure QubitPropertiesOpenAccess where
  T1 : ℚ
  T2 : ℚ
  eRO : ℚ
  tRO : ℚ
  eID : ℚ
  eSX : ℚ
  eX : ℚ
  eECR : List (String × ℚ)
  tECR : List (String × ℚ)
  deriving DecidableEq

/-- `IBMCalibration` (ibm.py lines 47-54): the decoded JSON document of an IBM
calibration file.  `properties` is keyed by the qubit index as a string. -/
structure IBMCalibration where
  name : String
  basis_gates : List String
  num_qubits : Nat
  connectivity : List (Nat × Nat)
  properties : List (String × QubitPropertiesIBM)
  deriving DecidableEq

/-- `IBMOpenAccessCalibration` (ibm.py lines 57-64 and ibm_open_access.py lines
31-38, textually identical): the decoded JSON document of an open-access IBM
calibration file. -/
structure IBMOpenAccessCalibration where
  name : String
  basis_gates : List String
  num_qubits : Nat
  connectivity : List (Nat × Nat)
  properties : List (String × QubitPropertiesOpenAccess)
  deriving DecidableEq

/-- Python `calibration["properties"][str(qubit)]`, which raises `KeyError`
when the qubit has no property block. -/
def propOf {α : Type u} (props : List (String × α)) (q : Nat) : Option α :=
  props.lookup (toString q)

/-- `IBMProvider.import_backend` (ibm.py lines 160-198).  The source populates
all five per-qubit tables inside one `for qubit in range(num_qubits)` loop and
both edge tables inside one `for qubit1, qubit2 in coupling_map` loop; the
embedding builds each table by its own pass over the same index sequence, which
yields the same tables and succeeds on exactly the same inputs (each pass
performs the same lookups). -/
def IBMProvider.import_backend (c : IBMCalibration) : Option Device := do
  let sqf ← tableFor c.num_qubits (fun q => (propOf c.properties q).map (fun p =>
    [("id", 1 - p.eID), ("rz", (1 : ℚ)), ("sx", 1 - p.eSX), ("x", 1 - p.eX)]))
  let rof ← tableFor c.num_qubits (fun q => (propOf c.properties q).map (fun p => 1 - p.eRO))
  let rod ← tableFor c.num_qubits (fun q => (propOf c.properties q).map (fun p =>
    p.tRO * (1 / 1000000000)))
  let t1 ← tableFor c.num_qubits (fun q => (propOf c.properties q).map (fun p =>
    p.T1 * (1 / 1000000)))
  let t2 ← tableFor c.num_qubits (fun q => (propOf c.properties q).map (fun p =>
    p.T2 * (1 / 1000000)))
  let tqf ← edgeTableFor c.connectivity (fun q1 q2 => do
    let p ← propOf c.properties q1
    let error ← p.eCX.lookup (edgeKey q1 q2)
    pure [("cx", 1 - error)])
  let tqd ← edgeTableFor c.connectivity (fun q1 q2 => do
    let p ← propOf c.properties q1
    let t ← p.tCX.lookup (edgeKey q1 q2)
    pure [("cx", t * (1 / 1000000000))])
  pure
    { name := c.name
      num_qubits := c.num_qubits
      basis_gates := c.basis_gates
      coupling_map := c.connectivity
      calibration :=
        { t1 := t1
          t2 := t2
          readout_fidelity := rof
          readout_duration := rod
          single_qubit_gate_fidelity := sqf
          single_qubit_gate_duration := []
          two_qubit_gate_fidelity := tqf
          two_qubit_gate_duration := tqd } }

/-- `IBMOpenAccessProvider.import_backend` as defined in ibm.py (lines
234-272): same structure as `IBMProvider.import_backend`, but the two-qubit
gate is `ecr`, its error is read from `eECR` and its duration from `tECR`. -/
def IBMOpenAccessProvider.import_backend (c : IBMOpenAccessCalibration) : Option Device := do
  let sqf ← tableFor c.num_qubits (fun q => (propOf c.properties q).map (fun p =>
    [("id", 1 - p.eID), ("rz", (1 : ℚ)), ("sx", 1 - p.eSX), ("x", 1 - p.eX)]))
  let rof ← tableFor c.num_qubits (fun q => (propOf c.properties q).map (fun p => 1 - p.eRO))
  let rod ← tableFor c.num_qubits (fun q => (propOf c.properties q).map (fun p =>
    p.tRO * (1 / 1000000000)))
  let t1 ← tableFor c.num_qubits (fun q => (propOf c.properties q).map (fun p =>
    p.T1 * (1 / 1000000)))
  let t2 ← tableFor c.num_qubits (fun q => (propOf c.properties q).map (fun p =>
    p.T2 * (1 / 1000000)))
  let tqf ← edgeTableFor c.connectivity (fun q1 q2 => do
    let p ← propOf c.properties q1
    let error ← p.eECR.lookup (edgeKey q1 q2)
    pure [("ecr", 1 - error)])
  let tqd ← edgeTableFor c.connectivity (fun q1 q2 => do
    let p ← propOf c.properties q1
    let t ← p.tECR.lookup (edgeKey q1 q2)
    pure [("ecr", t * (1 / 1000000000))])
  pure
    { name := c.name
      num_qubits := c.num_qubits
      basis_gates := c.basis_gates
      coupling_map := c.connectivity
      calibration :=
        { t1 := t1
          t2 := t2
          readout_fidelity := rof
          readout_duration := rod
          single_qubit_gate_fidelity := sqf
          single_qubit_gate_duration := []
          two_qubit_gate_fidelity := tqf
          two_qubit_gate_duration := tqd } }

/-- `IBMOpenAccessProvider.import_backend` as defined in ibm_open_access.py
(lines 56-99).  It differs from the ibm.py version in exactly one line: the
two-qubit gate duration is computed from the `eECR` field (line 95,
`duration = …["eECR"][edge] * 1e-9`), not from `tECR`. -/
def IBMOpenAccessFile.import_backend (c : IBMOpenAccessCalibration) : Option Device := do
  let sqf ← tableFor c.num_qubits (fun q => (propOf c.properties q).map (fun p =>
    [("id", 1 - p.eID), ("rz", (1 : ℚ)), ("sx", 1 - p.eSX), ("x", 1 - p.eX)]))
  let rof ← tableFor c.num_qubits (fun q => (propOf c.properties q).map (fun p => 1 - p.eRO))
  let rod ← tableFor c.num_qubits (fun q => (propOf c.properties q).map (fun p =>
    p.tRO * (1 / 1000000000)))
  let t1 ← tableFor c.num_qubits (fun q => (propOf c.properties q).map (fun p =>
    p.T1 * (1 / 1000000)))
  let t2 ← tableFor c.num_qubits (fun q => (propOf c.properties q).map (fun p =>
    p.T2 * (1 / 1000000)))
  let tqf ← edgeTableFor c.connectivity (fun q1 q2 => do
    let p ← propOf c.properties q1
    let error ← p.eECR.lookup (edgeKey q1 q2)
    pure [("ecr", 1 - error)])
  let tqd ← edgeTableFor c.connectivity (fun q1 q2 => do
    let p ← propOf c.properties q1
    let e ← p.eECR.lookup (edgeKey q1 q2)
    pure [("ecr", e * (1 / 1000000000))])
  pure
    { name := c.name
      num_qubits := c.num_qubits
      basis_gates := c.basis_gates
      coupling_map := c.connectivity
      calibration :=
        { t1 := t1
          t2 := t2
          readout_fidelity := rof
          readout_duration := rod
          single_qubit_gate_fidelity := sqf
          single_qubit_gate_duration := []
          two_qubit_gate_fidelity := tqf
          two_qubit_gate_duration := tqd } }

/-- Per-qubit property block of an OQC calibration file
(`QubitProperties`, oqc.py lines 23-30). -/
structure QubitPropertiesOQC where
  T1 : ℚ
  T2 : ℚ
  fRB : ℚ
  fRO : ℚ
  qubit : ℚ
  deriving DecidableEq

/-- `Coupling` (oqc.py lines 33-37). -/
structure Coupling where
  control_qubit : ℚ
  target_qubit : ℚ
  deriving DecidableEq

/-- `TwoQubitProperties` (oqc.py lines 40-44). -/
structure TwoQubitProperties where
  coupling : Coupling
  fECR : ℚ
  deriving DecidableEq

/-- `Properties` (oqc.py lines 47-51): `one_qubit` keyed by the qubit index as
a string, `two_qubit` keyed by `f"\x7bq1\x7d-\x7bq2\x7d"`. -/
structure PropertiesOQC where
  one_qubit : List (String × QubitPropertiesOQC)
  two_qubit : List (String × TwoQubitProperties)
  deriving DecidableEq

/-- `OQCCalibration` (oqc.py lines 54-61). -/
structure OQCCalibration where
  name : String
  basis_gates : List String
  num_qubits : Nat
  connectivity : List (Nat × Nat)
  properties : PropertiesOQC
  deriving DecidableEq

/-- The dict key `f"\x7bq1\x7d-\x7bq2\x7d"` of the OQC `two_qubit` table. -/
def oqcEdgeKey (q1 q2 : Nat) : String :=
  toString q1 ++ "-" ++ toString q2

/-- `OQCProvider.import_backend` (oqc.py lines 80-120), after the JSON file has
been decoded: per-qubit tables from `one_qubit` (fidelities `fRB`/`fRO` taken
as-is, `T1`/`T2` scaled µs→s), and the two-qubit *fidelity* table from
`two_qubit`; no duration table is ever written. -/
def OQCProvider.import_backend (c : OQCCalibration) : Option Device := do
  let sqf ← tableFor c.num_qubits (fun q => (propOf c.properties.one_qubit q).map (fun p =>
    [("rz", p.fRB), ("sx", p.fRB), ("x", p.fRB)]))
  let rof ← tableFor c.num_qubits (fun q => (propOf c.properties.one_qubit q).map (fun p =>
    p.fRO))
  let t1 ← tableFor c.num_qubits (fun q => (propOf c.properties.one_qubit q).map (fun p =>
    p.T1 * (1 / 1000000)))
  let t2 ← tableFor c.num_qubits (fun q => (propOf c.properties.one_qubit q).map (fun p =>
    p.T2 * (1 / 1000000)))
  let tqf ← edgeTableFor c.connectivity (fun q1 q2 => do
    let p ← c.properties.two_qubit.lookup (oqcEdgeKey q1 q2)
    pure [("ecr", p.fECR)])
  pure
    { name := c.name
      num_qubits := c.num_qubits
      basis_gates := c.basis_gates
      coupling_map := c.connectivity
      calibration :=
        { t1 := t1
          t2 := t2
          readout_fidelity := rof
          readout_duration := []
          single_qubit_gate_fidelity := sqf
          single_qubit_gate_duration := []
          two_qubit_gate_fidelity := tqf
          two_qubit_gate_duration := [] } }

/-- One per-qubit entry of a Qiskit `BackendProperties` object, as read through
the accessors `t1(q)`, `t2(q)`, `readout_error(q)`, `readout_length(q)`
(values already in SI units). -/
structure BPQubit where
  t1 : ℚ
  t2 : ℚ
  readout_error : ℚ
  readout_length : ℚ
  deriving DecidableEq

/-- One entry of `backend_properties.gates`, together with the values the
accessors `gate_error(gate, qubits)` and `gate_length(gate, qubits)` return
for it. -/
structure BPGate where
  gate : String
  qubits : List Nat
  gate_error : ℚ
  gate_length : ℚ
  deriving DecidableEq

/-- A Qiskit `BackendProperties` object, reduced to the accessor contract the
importer reads (ibm.py lines 71-104). -/
structure BackendProperties where
  qubits : List BPQubit
  gates : List BPGate
  deriving DecidableEq

/-- The body of the `for gate in backend_properties.gates` loop of
`BaseIBMProvider.import_backend_properties` (ibm.py lines 84-102): `reset` is
skipped; a 1-qubit gate is recorded into the single-qubit tables (whose keys
`range(num_qubits)` pre-exist — an out-of-range qubit raises `KeyError`); a
2-qubit gate is upserted into the two-qubit tables; other arities fall
through silently. -/
def BaseIBMProvider.gateStep (cal : DeviceCalibration) (g : BPGate) :
    Option DeviceCalibration :=
  if g.gate == "reset" then some cal
  else
    let error := g.gate_error
    let duration := g.gate_length
    match g.qubits with
    | [qubit] => do
      let sqf ← dictUpdate cal.single_qubit_gate_fidelity qubit
        (fun m => dictSet m g.gate (1 - error))
      let sqd ← dictUpdate cal.single_qubit_gate_duration qubit
        (fun m => dictSet m g.gate duration)
      pure { cal with single_qubit_gate_fidelity := sqf, single_qubit_gate_duration := sqd }
    | [qubit1, qubit2] =>
      some { cal with
        two_qubit_gate_fidelity :=
          dictSetNested cal.two_qubit_gate_fidelity (qubit1, qubit2) g.gate (1 - error)
        two_qubit_gate_duration :=
          dictSetNested cal.two_qubit_gate_duration (qubit1, qubit2) g.gate duration }
    | _ => some cal

/-- `BaseIBMProvider.import_backend_properties` (ibm.py lines 71-104): per-qubit
tables from the accessors, no unit conversion; single-qubit tables
pre-initialised with empty dicts for every qubit; then the gate loop. -/
def BaseIBMProvider.import_backend_properties (bp : BackendProperties) :
    Option DeviceCalibration := do
  let num_qubits := bp.qubits.length
  let t1 ← tableFor num_qubits (fun q => (bp.qubits.get? q).map (fun p => p.t1))
  let t2 ← tableFor num_qubits (fun q => (bp.qubits.get? q).map (fun p => p.t2))
  let rof ← tableFor num_qubits (fun q => (bp.qubits.get? q).map (fun p => 1 - p.readout_error))
  let rod ← tableFor num_qubits (fun q => (bp.qubits.get? q).map (fun p => p.readout_length))
  let init : DeviceCalibration :=
    { t1 := t1
      t2 := t2
      readout_fidelity := rof
      readout_duration := rod
      single_qubit_gate_fidelity := (List.range num_qubits).map (fun q => (q, []))
      single_qubit_gate_duration := (List.range num_qubits).map (fun q => (q, []))
      two_qubit_gate_fidelity := []
      two_qubit_gate_duration := [] }
  bp.gates.foldlM BaseIBMProvider.gateStep init

/-- A per-qubit entry of `target.qubit_properties`. -/
structure TargetQubitProps where
  t1 : ℚ
  t2 : ℚ
  deriving DecidableEq

/-- One element of `target.instructions` (an `(instruction, qargs)` pair),
together with the `error` and `duration` of the `InstructionProperties` that
`target[instruction.name][qargs]` returns for it. -/
structure TargetInstruction where
  name : String
  qargs : List Nat
  error : ℚ
  duration : ℚ
  deriving DecidableEq

/-- A Qiskit `Target` object, reduced to the accessor contract the importer
reads (ibm.py lines 107-141).  `coupling_edges` is
`target.build_coupling_map().get_edges()`. -/
structure Target where
  qubit_properties : List TargetQubitProps
  coupling_edges : List (Nat × Nat)
  instructions : List TargetInstruction
  deriving DecidableEq

/-- The body of the `for instruction, qargs in target.instructions` loop of
`BaseIBMProvider.import_target` (ibm.py lines 122-139): `reset` and `delay`
are skipped; `qubit = qargs[0]` is read before the branch (empty `qargs`
raises `IndexError`); `measure` is recorded into the readout tables; other
1-qubit instructions into the single-qubit tables (pre-existing keys only);
2-qubit instructions into the two-qubit tables, whose keys are exactly the
coupling-map edges (a non-edge raises `KeyError`). -/
def BaseIBMProvider.instructionStep (cal : DeviceCalibration) (ins : TargetInstruction) :
    Option DeviceCalibration :=
  if ins.name == "reset" || ins.name == "delay" then some cal
  else do
    let error := ins.error
    let duration := ins.duration
    let qubit ← ins.qargs.head?
    if ins.name == "measure" then
      pure { cal with
        readout_fidelity := dictSet cal.readout_fidelity qubit (1 - error)
        readout_duration := dictSet cal.readout_duration qubit duration }
    else
      match ins.qargs with
      | [q] => do
        let sqf ← dictUpdate cal.single_qubit_gate_fidelity q
          (fun m => dictSet m ins.name (1 - error))
        let sqd ← dictUpdate cal.single_qubit_gate_duration q
          (fun m => dictSet m ins.name duration)
        pure { cal with single_qubit_gate_fidelity := sqf, single_qubit_gate_duration := sqd }
      | [qubit1, qubit2] => do
        let tqf ← dictUpdate cal.two_qubit_gate_fidelity (qubit1, qubit2)
          (fun m => dictSet m ins.name (1 - error))
        let tqd ← dictUpdate cal.two_qubit_gate_duration (qubit1, qubit2)
          (fun m => dictSet m ins.name duration)
        pure { cal with two_qubit_gate_fidelity := tqf, two_qubit_gate_duration := tqd }
      | _ => pure cal

/-- `BaseIBMProvider.import_target` (ibm.py lines 107-141): `t1`/`t2` from
`qubit_properties`; single-qubit tables pre-initialised for every qubit and
two-qubit tables pre-initialised with an empty dict for every coupling-map
edge; then the instruction loop. -/
def BaseIBMProvider.import_target (t : Target) : Option DeviceCalibration := do
  let num_qubits := t.qubit_properties.length
  let t1 ← tableFor num_qubits (fun q => (t.qubit_properties.get? q).map (fun p => p.t1))
  let t2 ← tableFor num_qubits (fun q => (t.qubit_properties.get? q).map (fun p => p.t2))
  let init : DeviceCalibration :=
    { t1 := t1
      t2 := t2
      readout_fidelity := []
      readout_duration := []
      single_qubit_gate_fidelity := (List.range num_qubits).map (fun q => (q, []))
      single_qubit_gate_duration := (List.range num_qubits).map (fun q => (q, []))
      two_qubit_gate_fidelity := t.coupling_edges.map (fun e => (e, []))
      two_qubit_gate_duration := t.coupling_edges.map (fun e => (e, [])) }
  t.instructions.foldlM BaseIBMProvider.instructionStep init

/-- A provider, per the `Provider` abstract class (provider.py): the
class-level data each concrete provider supplies.  `import_backend` is the
vendor-specific import, a function of the device name as `get_device` calls it
(provider.py line 76).  `sanitize_device` is modelled from the spec: the
`Device.sanitize_device` operation lives in `device.py`, which is not part of
the shown sources; the spec (§4.5) fixes only its signature (Device to
Device), so it is an abstract field here. -/
structure ProviderSpec where
  provider_name : String
  available_device_names : List String
  native_gates : List String
  import_backend : String → Device
  sanitize_device : Device → Device

/-- The error raised by `Provider.get_device` for an unknown name
(provider.py lines 72-74).  The source raises `ValueError(f"Device ... not
found.")`; the spec's error taxonomy (§7) names this case
`UnknownDeviceError`. -/
inductive UnknownDeviceError where
  | unknownDevice (msg : String)
  deriving DecidableEq

/-- `Provider.get_device` (provider.py lines 64-81): reject a name outside
`get_available_device_names()`, otherwise import and optionally sanitize. -/
def ProviderSpec.get_device (p : ProviderSpec) (name : String) (sanitize_device : Bool) :
    Except UnknownDeviceError Device :=
  if name ∉ p.available_device_names then
    Except.error (UnknownDeviceError.unknownDevice ("Device " ++ name ++ " not found."))
  else
    let device := p.import_backend name
    Except.ok (if sanitize_device then p.sanitize_device device else device)

/-- A Python list comprehension whose element expression may raise: build the
list in order, aborting on the first failure. -/
def optionMap {α : Type u} {β : Type v} (f : α → Option β) : List α → Option (List β)
  | [] => some []
  | x :: xs => (f x).bind (fun y => (optionMap f xs).map (fun ys => y :: ys))

/-- `Provider.get_available_devices` (provider.py lines 30-36): `get_device`
mapped over all available names; an exception anywhere aborts the whole call
(modelled by `Option`). -/
def ProviderSpec.get_available_devices (p : ProviderSpec) (sanitize_device : Bool) :
    Option (List Device) :=
  optionMap (fun name => (p.get_device name sanitize_device).toOption)
    p.available_device_names

/-- `Provider.get_available_basis_gates` (provider.py lines 48-52): the Python
set comprehension over `tuple(device.basis_gates)` is embedded as `List.dedup`
(the claim under verification concerns only duplicate-freeness and
membership, both order-independent). -/
def ProviderSpec.get_available_basis_gates (p : ProviderSpec) : Option (List (List String)) :=
  (p.get_available_devices false).map
    (fun devices => (devices.map (fun device => device.basis_gates)).dedup)

/-- `IBMProvider.get_available_device_names` (ibm.py lines 150-152). -/
def IBMProvider.get_available_device_names : List String :=
  ["ibm_washington", "ibm_montreal"]

/-- `IBMOpenAccessProvider.get_available_device_names` (ibm.py lines 224-226
and ibm_open_access.py lines 46-48, identical). -/
def IBMOpenAccessProvider.get_available_device_names : List String :=
  ["ibm_kyiv", "ibm_brisbane", "ibm_sherbrooke"]

/-- `OQCProvider.get_available_device_names` (oqc.py lines 70-72). -/
def OQCProvider.get_available_device_names : List String :=
  ["oqc_lucy"]

/-- The calibration-table key invariant of the spec (§3, §8): every per-qubit
key below the qubit count, every per-edge key in the coupling map. -/
def DeviceCalibration.keysInRange (cal : DeviceCalibration) (n : Nat)
    (cm : List (Nat × Nat)) : Prop :=
  (∀ e ∈ cal.t1, e.1 < n) ∧ (∀ e ∈ cal.t2, e.1 < n) ∧
  (∀ e ∈ cal.readout_fidelity, e.1 < n) ∧ (∀ e ∈ cal.readout_duration, e.1 < n) ∧
  (∀ e ∈ cal.two_qubit_gate_fidelity, e.1 ∈ cm) ∧
  (∀ e ∈ cal.two_qubit_gate_duration, e.1 ∈ cm)

/-- No gate-keyed table of the calibration holds an entry under gate name
`g`. -/
def DeviceCalibration.noGateEntry (cal : DeviceCalibration) (g : String) : Prop :=
  (∀ e ∈ cal.single_qubit_gate_fidelity, e.2.lookup g = none) ∧
  (∀ e ∈ cal.single_qubit_gate_duration, e.2.lookup g = none) ∧
  (∀ e ∈ cal.two_qubit_gate_fidelity, e.2.lookup g = none) ∧
  (∀ e ∈ cal.two_qubit_gate_duration, e.2.lookup g = none)

/-! ## Concrete inputs used by witnesses and counterexamples -/

/-- Fallback value for extracting the device out of a successful import. -/
def fallbackDevice : Device :=
  { name := "", num_qubits := 0, basis_gates := [], coupling_map := [], calibration := {} }

/-- A minimal device returned by the abstract `import_backend` of the witness
providers below. -/
def witnessDevice : Device :=
  { name := "dev", num_qubits := 1, basis_gates := ["rz"], coupling_map := [],
    calibration := {} }

/-- The OQC provider's class-level data (oqc.py), with the abstract fields
instantiated for witnesses. -/
def oqcProviderSpec : ProviderSpec :=
  { provider_name := "oqc"
    available_device_names := OQCProvider.get_available_device_names
    native_gates := ["rz", "sx", "x", "ecr", "measure", "barrier"]
    import_backend := fun _ => witnessDevice
    sanitize_device := fun device => device }

/-- The IBM provider's class-level data (ibm.py): two available devices whose
imports share identical `basis_gates`. -/
def ibmProviderSpec : ProviderSpec :=
  { provider_name := "ibm"
    available_device_names := IBMProvider.get_available_device_names
    native_gates := ["id", "rz", "sx", "x", "cx", "measure", "barrier"]
    import_backend := fun _ => witnessDevice
    sanitize_device := fun device => device }

/-- Qubit-0 property block of the synthetic IBM file of spec §8, with
`T1 = 100` (µs) to exercise the exact µs→s round-trip. -/
def ibmProp0 : QubitPropertiesIBM :=
  { T1 := 100, T2 := 70, eRO := 2/100, tRO := 1000, eID := 1/1000, eSX := 1/1000,
    eX := 2/1000, eCX := [("0_1", 1/100)], tCX := [("0_1", 300)] }

/-- Qubit-1 property block of the synthetic IBM file (`T1 = 50` as in the
end-to-end example of spec §8). -/
def ibmProp1 : QubitPropertiesIBM :=
  { T1 := 50, T2 := 70, eRO := 2/100, tRO := 1000, eID := 1/1000, eSX := 1/1000,
    eX := 2/1000, eCX := [], tCX := [] }

/-- The minimal 2-qubit IBM-style calibration file of spec §8. -/
def ibmSampleFile : IBMCalibration :=
  { name := "ibm_montreal"
    basis_gates := ["id", "rz", "sx", "x", "cx", "measure", "barrier"]
    num_qubits := 2
    connectivity := [(0, 1)]
    properties := [("0", ibmProp0), ("1", ibmProp1)] }

/-- The device imported from `ibmSampleFile`. -/
def ibmSampleDevice : Device :=
  (IBMProvider.import_backend ibmSampleFile).getD fallbackDevice

/-- Qubit-0 property block of a synthetic open-access IBM file with
`eECR = 0.01` and `tECR = 300` on edge `0_1`. -/
def oaProp0 : QubitPropertiesOpenAccess :=
  { T1 := 100, T2 := 70, eRO := 2/100, tRO := 1000, eID := 1/1000, eSX := 1/1000,
    eX := 2/1000, eECR := [("0_1", 1/100)], tECR := [("0_1", 300)] }

/-- Qubit-1 property block of the synthetic open-access IBM file. -/
def oaProp1 : QubitPropertiesOpenAccess :=
  { T1 := 50, T2 := 70, eRO := 2/100, tRO := 1000, eID := 1/1000, eSX := 1/1000,
    eX := 2/1000, eECR := [], tECR := [] }

/-- A minimal 2-qubit open-access IBM calibration file. -/
def oaSampleFile : IBMOpenAccessCalibration :=
  { name := "ibm_kyiv"
    basis_gates := ["id", "rz", "sx", "x", "ecr", "measure", "barrier"]
    num_qubits := 2
    connectivity := [(0, 1)]
    properties := [("0", oaProp0), ("1", oaProp1)] }

/-- The device `ibm_open_access.py` imports from `oaSampleFile`. -/
def oaFileDevice : Device :=
  (IBMOpenAccessFile.import_backend oaSampleFile).getD fallbackDevice

/-- The device ibm.py's `IBMOpenAccessProvider` imports from `oaSampleFile`. -/
def oaIbmDevice : Device :=
  (IBMOpenAccessProvider.import_backend oaSampleFile).getD fallbackDevice

/-- Qubit-0 block of a synthetic OQC calibration file. -/
def oqcQubit0 : QubitPropertiesOQC :=
  { T1 := 40, T2 := 60, fRB := 998/1000, fRO := 95/100, qubit := 0 }

/-- Qubit-1 block of the synthetic OQC calibration file. -/
def oqcQubit1 : QubitPropertiesOQC :=
  { T1 := 45, T2 := 65, fRB := 997/1000, fRO := 94/100, qubit := 1 }

/-- The edge block of the synthetic OQC calibration file. -/
def oqcEdge01 : TwoQubitProperties :=
  { coupling := { control_qubit := 0, target_qubit := 1 }, fECR := 9/10 }

/-- A minimal 2-qubit OQC calibration file. -/
def oqcSampleFile : OQCCalibration :=
  { name := "oqc_lucy"
    basis_gates := ["rz", "sx", "x", "ecr", "measure", "barrier"]
    num_qubits := 2
    connectivity := [(0, 1)]
    properties :=
      { one_qubit := [("0", oqcQubit0), ("1", oqcQubit1)]
        two_qubit := [("0-1", oqcEdge01)] } }

/-- The device imported from `oqcSampleFile`. -/
def oqcSampleDevice : Device :=
  (OQCProvider.import_backend oqcSampleFile).getD fallbackDevice

/-- A `BackendProperties` object whose gate list contains a 1-qubit `delay`
operation (plus a `reset` and an ordinary gate). -/
def bpDelaySample : BackendProperties :=
  { qubits := [{ t1 := 1/10000, t2 := 1/10000, readout_error := 2/100,
                 readout_length := 1/1000000 }]
    gates := [{ gate := "delay", qubits := [0], gate_error := 1/1000, gate_length := 1/100000 },
              { gate := "reset", qubits := [0], gate_error := 0, gate_length := 0 },
              { gate := "x", qubits := [0], gate_error := 1/1000, gate_length := 1/10000000 }] }

/-- The calibration `import_backend_properties` extracts from
`bpDelaySample`. -/
def bpDelayCal : DeviceCalibration :=
  (BaseIBMProvider.import_backend_properties bpDelaySample).getD {}

/-- A `Target` object whose instruction list contains `reset` and `delay`
next to `measure`, a 1-qubit and a 2-qubit instruction. -/
def targetSample : Target :=
  { qubit_properties := [{ t1 := 1/10000, t2 := 1/10000 }, { t1 := 1/10000, t2 := 9/100000 }]
    coupling_edges := [(0, 1)]
    instructions :=
      [{ name := "reset", qargs := [0], error := 0, duration := 0 },
       { name := "delay", qargs := [0], error := 0, duration := 0 },
       { name := "measure", qargs := [0], error := 2/100, duration := 1/1000000 },
       { name := "x", qargs := [0], error := 1/1000, duration := 1/10000000 },
       { name := "cx", qargs := [0, 1], error := 1/100, duration := 3/10000000 }] }

/-- The calibration `import_target` extracts from `targetSample`. -/
def targetSampleCal : DeviceCalibration :=
  (BaseIBMProvider.import_target targetSample).getD {}

/-! ## Infrastructure lemmas -/

theorem assocMapM_mem {κ : Type u} {α : Type v} (f : κ → Option α) :
    ∀ (ks : List κ) (l : List (κ × α)), assocMapM f ks = some l →
      ∀ p ∈ l, p.1 ∈ ks ∧ f p.1 = some p.2 := by
  intro ks
  induction ks with
  | nil =>
    intro l h p hp
    simp only [assocMapM, Option.some.injEq] at h
    subst h
    simp at hp
  | cons k ks ih =>
    intro l h p hp
    simp only [assocMapM, Option.bind_eq_some, Option.map_eq_some'] at h
    obtain ⟨v, hv, rest, hrest, rfl⟩ := h
    rcases List.mem_cons.mp hp with hp | hp
    · subst hp
      exact ⟨List.mem_cons_self _ _, hv⟩
    · obtain ⟨h1, h2⟩ := ih rest hrest p hp
      exact ⟨List.mem_cons_of_mem _ h1, h2⟩

theorem assocMapM_lookup {κ : Type u} {α : Type v} [BEq κ] [LawfulBEq κ] (f : κ → Option α) :
    ∀ (ks : List κ) (l : List (κ × α)), assocMapM f ks = some l →
      ∀ k ∈ ks, ∃ v, f k = some v ∧ l.lookup k = some v := by
  intro ks
  induction ks with
  | nil =>
    intro l _ k hk
    simp at hk
  | cons k0 ks ih =>
    intro l h k hk
    simp only [assocMapM, Option.bind_eq_some, Option.map_eq_some'] at h
    obtain ⟨v0, hv0, rest, hrest, rfl⟩ := h
    by_cases hkk : k = k0
    · subst hkk
      exact ⟨v0, hv0, by simp [List.lookup]⟩
    · rcases List.mem_cons.mp hk with h1 | h1
      · exact absurd h1 hkk
      · obtain ⟨v, hv, hlv⟩ := ih rest hrest k h1
        refine ⟨v, hv, ?_⟩
        simpa [List.lookup, beq_eq_false_iff_ne.mpr hkk] using hlv

theorem exceptToOption_ok {ε : Type u} {α : Type v} (a : α) :
    (Except.ok a : Except ε α).toOption = some a := rfl

theorem foldlM_option_inv {σ : Type u} {α : Type v} {P : σ → Prop} (step : σ → α → Option σ) :
    ∀ (xs : List α) (s0 s1 : σ), xs.foldlM step s0 = some s1 → P s0 →
      (∀ s x s2, x ∈ xs → P s → step s x = some s2 → P s2) → P s1 := by
  intro xs
  induction xs with
  | nil =>
    intro s0 s1 h hP _
    simp only [List.foldlM_nil, Option.pure_def, Option.some.injEq] at h
    subst h
    exact hP
  | cons x xs ih =>
    intro s0 s1 h hP hstep
    rw [List.foldlM_cons] at h
    simp only [bind, Option.bind_eq_some] at h
    obtain ⟨s2, hs2, hrest⟩ := h
    exact ih s2 s1 hrest (hstep s0 x s2 (List.mem_cons_self _ _) hP hs2)
      (fun s y s3 hy => hstep s y s3 (List.mem_cons_of_mem _ hy))

theorem lookup_dictSet_ne {κ : Type u} {α : Type v} [BEq κ] [LawfulBEq κ]
    (l : List (κ × α)) (k g : κ) (v : α) (h : g ≠ k) :
    (dictSet l k v).lookup g = l.lookup g := by
  induction l with
  | nil =>
    simp [dictSet, List.lookup, beq_eq_false_iff_ne.mpr h]
  | cons p rest ih =>
    obtain ⟨k0, v0⟩ := p
    by_cases hbeq : k0 == k
    · have hk0 : k0 = k := eq_of_beq hbeq
      subst hk0
      have hg : (g == k0) = false := beq_eq_false_iff_ne.mpr h
      simp [dictSet, List.lookup, hg]
    · have hb : (k0 == k) = false := by simpa using hbeq
      simp only [dictSet, hb, Bool.false_eq_true, if_false]
      by_cases hg : g == k0
      · have hgt : (g == k0) = true := hg
        simp [List.lookup, hgt]
      · have hgf : (g == k0) = false := by simpa using hg
        simp [List.lookup, hgf, ih]

theorem dictUpdate_entries {κ : Type u} {α : Type v} [BEq κ] [LawfulBEq κ] :
    ∀ (l l2 : List (κ × α)) (k : κ) (f : α → α), dictUpdate l k f = some l2 →
      ∀ p ∈ l2, p ∈ l ∨ ∃ v, (p.1, v) ∈ l ∧ p.2 = f v := by
  intro l
  induction l with
  | nil =>
    intro l2 k f h
    simp [dictUpdate] at h
  | cons q rest ih =>
    intro l2 k f h p hp
    obtain ⟨k0, v0⟩ := q
    by_cases hk : k0 == k
    · rw [dictUpdate, if_pos hk] at h
      obtain rfl := Option.some.injEq .. ▸ h.symm
      rcases List.mem_cons.mp hp with hp | hp
      · subst hp
        exact Or.inr ⟨v0, List.mem_cons_self _ _, rfl⟩
      · exact Or.inl (List.mem_cons_of_mem _ hp)
    · rw [dictUpdate, if_neg (by simpa using hk)] at h
      simp only [Option.map_eq_some'] at h
      obtain ⟨l3, hl3, rfl⟩ := h
      rcases List.mem_cons.mp hp with hp | hp
      · subst hp
        exact Or.inl (List.mem_cons_self _ _)
      · rcases ih l3 k f hl3 p hp with h1 | ⟨v, hv, hfv⟩
        · exact Or.inl (List.mem_cons_of_mem _ h1)
        · exact Or.inr ⟨v, List.mem_cons_of_mem _ hv, hfv⟩

theorem dictSetNested_entries {κ : Type u} [BEq κ] [LawfulBEq κ] :
    ∀ (l : List (κ × List (String × ℚ))) (k : κ) (gname : String) (v : ℚ),
      ∀ p ∈ dictSetNested l k gname v,
        p ∈ l ∨ ∃ m, p.2 = dictSet m gname v ∧ ((p.1, m) ∈ l ∨ m = []) := by
  intro l
  induction l with
  | nil =>
    intro k gname v p hp
    simp only [dictSetNested] at hp
    rcases List.mem_singleton.mp hp with rfl
    exact Or.inr ⟨[], rfl, Or.inr rfl⟩
  | cons q rest ih =>
    intro k gname v p hp
    obtain ⟨k0, m0⟩ := q
    by_cases hk : k0 == k
    · rw [dictSetNested, if_pos hk] at hp
      rcases List.mem_cons.mp hp with hp | hp
      · subst hp
        exact Or.inr ⟨m0, rfl, Or.inl (List.mem_cons_self _ _)⟩
      · exact Or.inl (List.mem_cons_of_mem _ hp)
    · rw [dictSetNested, if_neg hk] at hp
      rcases List.mem_cons.mp hp with hp | hp
      · subst hp
        exact Or.inl (List.mem_cons_self _ _)
      · rcases ih k gname v p hp with h1 | ⟨m, hm, hmem⟩
        · exact Or.inl (List.mem_cons_of_mem _ h1)
        · rcases hmem with hmem | hmem
          · exact Or.inr ⟨m, hm, Or.inl (List.mem_cons_of_mem _ hmem)⟩
          · exact Or.inr ⟨m, hm, Or.inr hmem⟩

theorem tableFor_keys {α : Type u} {n : Nat} {f : Nat → Option α} {l : List (Nat × α)}
    (h : tableFor n f = some l) : ∀ p ∈ l, p.1 < n :=
  fun p hp => List.mem_range.mp (assocMapM_mem f (List.range n) l h p hp).1

theorem edgeTableFor_keys {α : Type u} {edges : List (Nat × Nat)} {f : Nat → Nat → Option α}
    {l : List ((Nat × Nat) × α)} (h : edgeTableFor edges f = some l) :
    ∀ p ∈ l, p.1 ∈ edges :=
  fun p hp => (assocMapM_mem _ edges l h p hp).1

/-! ## Claim theorems -/

/-- **C1.** For every provider and every name not contained in
`get_available_device_names()`, `get_device(name, sanitize)` fails with
`UnknownDeviceError`; for every contained name it does not fail and returns
the device produced by `import_backend(name)`, sanitized when `sanitize` is
true. -/
theorem get_device_contract (p : ProviderSpec) (name : String) (sanitize_device : Bool) :
    (name ∉ p.available_device_names →
      p.get_device name sanitize_device =
        Except.error (UnknownDeviceError.unknownDevice ("Device " ++ name ++ " not found."))) ∧
    (name ∈ p.available_device_names →
      p.get_device name sanitize_device =
        Except.ok (if sanitize_device then p.sanitize_device (p.import_backend name)
          else p.import_backend name)) := by
  constructor
  · intro h
    simp [ProviderSpec.get_device, h]
  · intro h
    simp [ProviderSpec.get_device, h]

/-- Witness for C1: the OQC provider rejects `"nonexistent_device"` and
imports `"oqc_lucy"`, sanitized. -/
theorem get_device_contract_witness :
    ("nonexistent_device" ∉ oqcProviderSpec.available_device_names ∧
      oqcProviderSpec.get_device "nonexistent_device" false =
        Except.error (UnknownDeviceError.unknownDevice "Device nonexistent_device not found.")) ∧
    ("oqc_lucy" ∈ oqcProviderSpec.available_device_names ∧
      oqcProviderSpec.get_device "oqc_lucy" true =
        Except.ok (oqcProviderSpec.sanitize_device (oqcProviderSpec.import_backend "oqc_lucy"))) :=
  ⟨⟨by decide, (get_device_contract oqcProviderSpec "nonexistent_device" false).1 (by decide)⟩,
   ⟨by decide, (get_device_contract oqcProviderSpec "oqc_lucy" true).2 (by decide)⟩⟩

/-- **C7.** For every provider, `get_available_basis_gates()` succeeds and
returns a duplicate-free list whose members are exactly the `basis_gates` of
the available devices. -/
theorem get_available_basis_gates_spec (p : ProviderSpec) :
    ∃ gs, p.get_available_basis_gates = some gs ∧ gs.Nodup ∧
      ∀ g, g ∈ gs ↔ ∃ name ∈ p.available_device_names, (p.import_backend name).basis_gates = g := by
  have key : ∀ names : List String, (∀ n ∈ names, n ∈ p.available_device_names) →
      optionMap (fun name => (p.get_device name false).toOption) names =
        some (names.map p.import_backend) := by
    intro names
    induction names with
    | nil => intro _; rfl
    | cons n ns ih =>
      intro h
      have hn : n ∈ p.available_device_names := h n (List.mem_cons_self _ _)
      have hdev : p.get_device n false = Except.ok (p.import_backend n) := by
        simp [ProviderSpec.get_device, hn]
      have ihs := ih (fun m hm => h m (List.mem_cons_of_mem _ hm))
      simp [optionMap, hdev, exceptToOption_ok, ihs]
  have hdevs : p.get_available_devices false =
      some (p.available_device_names.map p.import_backend) :=
    key p.available_device_names (fun _ hn => hn)
  refine ⟨((p.available_device_names.map p.import_backend).map
      (fun device => device.basis_gates)).dedup, ?_, List.nodup_dedup _, ?_⟩
  · simp [ProviderSpec.get_available_basis_gates, hdevs]
  · intro g
    simp [List.mem_dedup, List.map_map, List.mem_map, Function.comp]

/-- Witness for C7: the IBM provider has two available devices with identical
basis gates, and the returned list holds that gate set once. -/
theorem get_available_basis_gates_spec_witness :
    ibmProviderSpec.get_available_basis_gates = some [["rz"]] ∧
    ibmProviderSpec.import_backend "ibm_washington" =
      ibmProviderSpec.import_backend "ibm_montreal" := by
  obtain ⟨gs, hgs, hnodup, hmem⟩ := get_available_basis_gates_spec ibmProviderSpec
  have hconc : ibmProviderSpec.get_available_basis_gates = some [["rz"]] := by decide
  exact ⟨hconc, rfl⟩

/-- **C9.** A successful OQC import leaves `two_qubit_gate_duration`,
`readout_duration` and `single_qubit_gate_duration` empty: absence of a
duration key means unknown, not zero. -/
theorem oqc_import_durations_empty (c : OQCCalibration) (d : Device)
    (h : OQCProvider.import_backend c = some d) :
    d.calibration.two_qubit_gate_duration = [] ∧
    d.calibration.readout_duration = [] ∧
    d.calibration.single_qubit_gate_duration = [] := by
  simp only [OQCProvider.import_backend, Option.bind_eq_bind, Option.bind_eq_some,
    Option.pure_def, Option.some.injEq] at h
  obtain ⟨sqf, hsqf, rof, hrof, t1, ht1, t2, ht2, tqf, htqf, hd⟩ := h
  subst hd
  exact ⟨rfl, rfl, rfl⟩

/-- Witness for C9 at the synthetic OQC file. -/
theorem oqc_import_durations_empty_witness :
    oqcSampleDevice.calibration.two_qubit_gate_duration = [] ∧
    oqcSampleDevice.calibration.readout_duration = [] ∧
    oqcSampleDevice.calibration.single_qubit_gate_duration = [] :=
  oqc_import_durations_empty oqcSampleFile oqcSampleDevice rfl

/-- **C5.** A successful OQC import gives every qubit the same single-qubit
fidelity `fRB` for `rz`, `sx` and `x`, and takes the readout fidelity `fRO`
unchanged (no `1 - x` inversion). -/
theorem oqc_import_fidelities (c : OQCCalibration) (d : Device)
    (h : OQCProvider.import_backend c = some d) (q : Nat) (hq : q < c.num_qubits)
    (p : QubitPropertiesOQC) (hp : propOf c.properties.one_qubit q = some p) :
    gateVal d.calibration.single_qubit_gate_fidelity q "rz" = some p.fRB ∧
    gateVal d.calibration.single_qubit_gate_fidelity q "sx" = some p.fRB ∧
    gateVal d.calibration.single_qubit_gate_fidelity q "x" = some p.fRB ∧
    d.calibration.readout_fidelity.lookup q = some p.fRO := by
  simp only [OQCProvider.import_backend, Option.bind_eq_bind, Option.bind_eq_some,
    Option.pure_def, Option.some.injEq] at h
  obtain ⟨sqf, hsqf, rof, hrof, t1, ht1, t2, ht2, tqf, htqf, hd⟩ := h
  subst hd
  obtain ⟨m, hm, hlk⟩ :=
    assocMapM_lookup _ (List.range c.num_qubits) sqf hsqf q (List.mem_range.mpr hq)
  rw [hp] at hm
  simp only [Option.map_some', Option.some.injEq] at hm
  subst hm
  obtain ⟨v, hv, hlro⟩ :=
    assocMapM_lookup _ (List.range c.num_qubits) rof hrof q (List.mem_range.mpr hq)
  rw [hp] at hv
  simp only [Option.map_some', Option.some.injEq] at hv
  subst hv
  refine ⟨?_, ?_, ?_, hlro⟩ <;> simp [gateVal, hlk, List.lookup]

/-- Witness for C5 at the synthetic OQC file: all three gates of qubit 0 carry
`fRB = 0.998` and the readout fidelity is `fRO = 0.95` as-is. -/
theorem oqc_import_fidelities_witness :
    gateVal oqcSampleDevice.calibration.single_qubit_gate_fidelity 0 "rz" =
      some oqcQubit0.fRB ∧
    gateVal oqcSampleDevice.calibration.single_qubit_gate_fidelity 0 "sx" =
      some oqcQubit0.fRB ∧
    gateVal oqcSampleDevice.calibration.single_qubit_gate_fidelity 0 "x" =
      some oqcQubit0.fRB ∧
    oqcSampleDevice.calibration.readout_fidelity.lookup 0 = some oqcQubit0.fRO :=
  oqc_import_fidelities oqcSampleFile oqcSampleDevice rfl 0 (by decide) oqcQubit0 rfl

/-- **C4.** All three file-based IBM-style imports (ibm.py's IBM and
open-access providers and ibm_open_access.py) set the `rz` fidelity of every
qubit to exactly 1, whatever the input file holds. -/
theorem ibm_rz_fidelity_one :
    (∀ (c : IBMCalibration) (d : Device), IBMProvider.import_backend c = some d →
      ∀ q, q < c.num_qubits →
        gateVal d.calibration.single_qubit_gate_fidelity q "rz" = some 1) ∧
    (∀ (c : IBMOpenAccessCalibration) (d : Device),
      IBMOpenAccessProvider.import_backend c = some d →
      ∀ q, q < c.num_qubits →
        gateVal d.calibration.single_qubit_gate_fidelity q "rz" = some 1) ∧
    (∀ (c : IBMOpenAccessCalibration) (d : Device),
      IBMOpenAccessFile.import_backend c = some d →
      ∀ q, q < c.num_qubits →
        gateVal d.calibration.single_qubit_gate_fidelity q "rz" = some 1) := by
  refine ⟨?_, ?_, ?_⟩ <;>
  · intro c d h q hq
    simp only [IBMProvider.import_backend, IBMOpenAccessProvider.import_backend,
      IBMOpenAccessFile.import_backend, Option.bind_eq_bind, Option.bind_eq_some,
      Option.pure_def, Option.some.injEq] at h
    obtain ⟨sqf, hsqf, rof, hrof, rod, hrod, t1, ht1, t2, ht2, tqf, htqf, tqd, htqd, hd⟩ := h
    subst hd
    obtain ⟨m, hm, hlk⟩ :=
      assocMapM_lookup _ (List.range c.num_qubits) sqf hsqf q (List.mem_range.mpr hq)
    simp only [Option.map_eq_some'] at hm
    obtain ⟨p, hp, hmval⟩ := hm
    subst hmval
    simp [gateVal, hlk, List.lookup]

/-- Witness for C4 at the synthetic IBM and open-access files. -/
theorem ibm_rz_fidelity_one_witness :
    gateVal ibmSampleDevice.calibration.single_qubit_gate_fidelity 0 "rz" = some 1 ∧
    gateVal oaIbmDevice.calibration.single_qubit_gate_fidelity 0 "rz" = some 1 ∧
    gateVal oaFileDevice.calibration.single_qubit_gate_fidelity 1 "rz" = some 1 :=
  ⟨ibm_rz_fidelity_one.1 ibmSampleFile ibmSampleDevice rfl 0 (by decide),
   ibm_rz_fidelity_one.2.1 oaSampleFile oaIbmDevice rfl 0 (by decide),
   ibm_rz_fidelity_one.2.2 oaSampleFile oaFileDevice rfl 1 (by decide)⟩

/-- **C3.** A successful file-based IBM import converts units exactly:
`t1`/`t2` scale µs→s (×1e-6), readout duration scales ns→s (×1e-9), the `cx`
fidelity on an edge is `1 - eCX` from the control qubit's property block, and
the `cx` duration is `tCX × 1e-9` from the same block. -/
theorem ibm_import_unit_conversions (c : IBMCalibration) (d : Device)
    (h : IBMProvider.import_backend c = some d) :
    (∀ q, q < c.num_qubits → ∀ p, propOf c.properties q = some p →
      d.calibration.t1.lookup q = some (p.T1 * (1 / 1000000)) ∧
      d.calibration.t2.lookup q = some (p.T2 * (1 / 1000000)) ∧
      d.calibration.readout_duration.lookup q = some (p.tRO * (1 / 1000000000)) ∧
      d.calibration.readout_fidelity.lookup q = some (1 - p.eRO)) ∧
    (∀ q1 q2, (q1, q2) ∈ c.connectivity → ∀ p, propOf c.properties q1 = some p →
      (∀ e, p.eCX.lookup (edgeKey q1 q2) = some e →
        gateVal d.calibration.two_qubit_gate_fidelity (q1, q2) "cx" = some (1 - e)) ∧
      (∀ t, p.tCX.lookup (edgeKey q1 q2) = some t →
        gateVal d.calibration.two_qubit_gate_duration (q1, q2) "cx" =
          some (t * (1 / 1000000000)))) := by
  simp only [IBMProvider.import_backend, Option.bind_eq_bind, Option.bind_eq_some,
    Option.pure_def, Option.some.injEq] at h
  obtain ⟨sqf, hsqf, rof, hrof, rod, hrod, t1, ht1, t2, ht2, tqf, htqf, tqd, htqd, hd⟩ := h
  subst hd
  constructor
  · intro q hq p hp
    have hrange := List.mem_range.mpr hq
    obtain ⟨v1, hv1, hl1⟩ := assocMapM_lookup _ _ _ ht1 q hrange
    rw [hp] at hv1
    simp only [Option.map_some', Option.some.injEq] at hv1
    subst hv1
    obtain ⟨v2, hv2, hl2⟩ := assocMapM_lookup _ _ _ ht2 q hrange
    rw [hp] at hv2
    simp only [Option.map_some', Option.some.injEq] at hv2
    subst hv2
    obtain ⟨v3, hv3, hl3⟩ := assocMapM_lookup _ _ _ hrod q hrange
    rw [hp] at hv3
    simp only [Option.map_some', Option.some.injEq] at hv3
    subst hv3
    obtain ⟨v4, hv4, hl4⟩ := assocMapM_lookup _ _ _ hrof q hrange
    rw [hp] at hv4
    simp only [Option.map_some', Option.some.injEq] at hv4
    subst hv4
    exact ⟨hl1, hl2, hl3, hl4⟩
  · intro q1 q2 hmem p hp
    constructor
    · intro e he
      obtain ⟨v, hv, hl⟩ := assocMapM_lookup _ _ _ htqf (q1, q2) hmem
      simp only [Option.bind_eq_bind, Option.bind_eq_some, Option.pure_def,
        Option.some.injEq] at hv
      obtain ⟨p2, hp2, e2, he2, hval⟩ := hv
      rw [hp] at hp2
      obtain rfl := Option.some.inj hp2
      rw [he] at he2
      obtain rfl := Option.some.inj he2
      subst hval
      simp [gateVal, hl, List.lookup]
    · intro t ht
      obtain ⟨v, hv, hl⟩ := assocMapM_lookup _ _ _ htqd (q1, q2) hmem
      simp only [Option.bind_eq_bind, Option.bind_eq_some, Option.pure_def,
        Option.some.injEq] at hv
      obtain ⟨p2, hp2, t3, ht3, hval⟩ := hv
      rw [hp] at hp2
      obtain rfl := Option.some.inj hp2
      rw [ht] at ht3
      obtain rfl := Option.some.inj ht3
      subst hval
      simp [gateVal, hl, List.lookup]

/-- Witness for C3 at the synthetic IBM file: `T1 = 100` µs becomes exactly
`100e-6` s (and `T1 = 50` becomes `50e-6`), `eCX = 0.01` becomes `cx` fidelity
`0.99`, and `tCX = 300` ns becomes `300e-9` s. -/
theorem ibm_import_unit_conversions_witness :
    ibmSampleDevice.calibration.t1.lookup 0 = some (1/10000) ∧
    ibmSampleDevice.calibration.t1.lookup 1 = some (1/20000) ∧
    gateVal ibmSampleDevice.calibration.two_qubit_gate_fidelity (0, 1) "cx" = some (99/100) ∧
    gateVal ibmSampleDevice.calibration.two_qubit_gate_duration (0, 1) "cx" =
      some (3/10000000) := by
  obtain ⟨hq, he⟩ := ibm_import_unit_conversions ibmSampleFile ibmSampleDevice rfl
  obtain ⟨ht10, -, -, -⟩ := hq 0 (by decide) ibmProp0 rfl
  obtain ⟨ht11, -, -, -⟩ := hq 1 (by decide) ibmProp1 rfl
  obtain ⟨hf, hd⟩ := he 0 1 (by decide) ibmProp0 rfl
  have hf1 := hf (1/100) rfl
  have hd1 := hd 300 rfl
  refine ⟨?_, ?_, ?_, ?_⟩
  · rw [ht10]
    norm_num [ibmProp0]
  · rw [ht11]
    norm_num [ibmProp1]
  · rw [hf1]
    norm_num
  · rw [hd1]
    norm_num

/-- **C6.** Every successful file-based import (IBM, both open-access
variants, OQC) yields a device whose per-qubit calibration keys all lie in
`range(num_qubits)` and whose per-edge keys all lie in the device's
`coupling_map`. -/
theorem import_calibration_keys_in_range :
    (∀ (c : IBMCalibration) (d : Device), IBMProvider.import_backend c = some d →
      d.calibration.keysInRange d.num_qubits d.coupling_map) ∧
    (∀ (c : IBMOpenAccessCalibration) (d : Device),
      IBMOpenAccessProvider.import_backend c = some d →
      d.calibration.keysInRange d.num_qubits d.coupling_map) ∧
    (∀ (c : IBMOpenAccessCalibration) (d : Device),
      IBMOpenAccessFile.import_backend c = some d →
      d.calibration.keysInRange d.num_qubits d.coupling_map) ∧
    (∀ (c : OQCCalibration) (d : Device), OQCProvider.import_backend c = some d →
      d.calibration.keysInRange d.num_qubits d.coupling_map) := by
  refine ⟨?_, ?_, ?_, ?_⟩
  · intro c d h
    simp only [IBMProvider.import_backend, Option.bind_eq_bind, Option.bind_eq_some,
      Option.pure_def, Option.some.injEq] at h
    obtain ⟨sqf, hsqf, rof, hrof, rod, hrod, t1, ht1, t2, ht2, tqf, htqf, tqd, htqd, hd⟩ := h
    subst hd
    exact ⟨tableFor_keys ht1, tableFor_keys ht2, tableFor_keys hrof, tableFor_keys hrod,
      edgeTableFor_keys htqf, edgeTableFor_keys htqd⟩
  · intro c d h
    simp only [IBMOpenAccessProvider.import_backend, Option.bind_eq_bind, Option.bind_eq_some,
      Option.pure_def, Option.some.injEq] at h
    obtain ⟨sqf, hsqf, rof, hrof, rod, hrod, t1, ht1, t2, ht2, tqf, htqf, tqd, htqd, hd⟩ := h
    subst hd
    exact ⟨tableFor_keys ht1, tableFor_keys ht2, tableFor_keys hrof, tableFor_keys hrod,
      edgeTableFor_keys htqf, edgeTableFor_keys htqd⟩
  · intro c d h
    simp only [IBMOpenAccessFile.import_backend, Option.bind_eq_bind, Option.bind_eq_some,
      Option.pure_def, Option.some.injEq] at h
    obtain ⟨sqf, hsqf, rof, hrof, rod, hrod, t1, ht1, t2, ht2, tqf, htqf, tqd, htqd, hd⟩ := h
    subst hd
    exact ⟨tableFor_keys ht1, tableFor_keys ht2, tableFor_keys hrof, tableFor_keys hrod,
      edgeTableFor_keys htqf, edgeTableFor_keys htqd⟩
  · intro c d h
    simp only [OQCProvider.import_backend, Option.bind_eq_bind, Option.bind_eq_some,
      Option.pure_def, Option.some.injEq] at h
    obtain ⟨sqf, hsqf, rof, hrof, t1, ht1, t2, ht2, tqf, htqf, hd⟩ := h
    subst hd
    refine ⟨tableFor_keys ht1, tableFor_keys ht2, tableFor_keys hrof, ?_,
      edgeTableFor_keys htqf, ?_⟩
    · intro e he
      simp at he
    · intro e he
      simp at he

/-- Witness for C6 at the synthetic IBM, open-access and OQC files. -/
theorem import_calibration_keys_in_range_witness :
    ibmSampleDevice.calibration.keysInRange ibmSampleDevice.num_qubits
      ibmSampleDevice.coupling_map ∧
    oaIbmDevice.calibration.keysInRange oaIbmDevice.num_qubits oaIbmDevice.coupling_map ∧
    oaFileDevice.calibration.keysInRange oaFileDevice.num_qubits oaFileDevice.coupling_map ∧
    oqcSampleDevice.calibration.keysInRange oqcSampleDevice.num_qubits
      oqcSampleDevice.coupling_map :=
  ⟨import_calibration_keys_in_range.1 ibmSampleFile ibmSampleDevice rfl,
   import_calibration_keys_in_range.2.1 oaSampleFile oaIbmDevice rfl,
   import_calibration_keys_in_range.2.2.1 oaSampleFile oaFileDevice rfl,
   import_calibration_keys_in_range.2.2.2 oqcSampleFile oqcSampleDevice rfl⟩

/-- **C10 (amended).** On any open-access file both importers accept, the two
devices agree on name, qubit count, basis gates, coupling map and every
calibration table except `two_qubit_gate_duration` (which ibm.py reads from
`tECR` and ibm_open_access.py reads from `eECR`). -/
theorem open_access_importers_agree_except_duration (c : IBMOpenAccessCalibration)
    (d1 d2 : Device) (h1 : IBMOpenAccessProvider.import_backend c = some d1)
    (h2 : IBMOpenAccessFile.import_backend c = some d2) :
    d1.name = d2.name ∧ d1.num_qubits = d2.num_qubits ∧ d1.basis_gates = d2.basis_gates ∧
    d1.coupling_map = d2.coupling_map ∧
    d1.calibration.t1 = d2.calibration.t1 ∧ d1.calibration.t2 = d2.calibration.t2 ∧
    d1.calibration.readout_fidelity = d2.calibration.readout_fidelity ∧
    d1.calibration.readout_duration = d2.calibration.readout_duration ∧
    d1.calibration.single_qubit_gate_fidelity = d2.calibration.single_qubit_gate_fidelity ∧
    d1.calibration.single_qubit_gate_duration = d2.calibration.single_qubit_gate_duration ∧
    d1.calibration.two_qubit_gate_fidelity = d2.calibration.two_qubit_gate_fidelity := by
  simp only [IBMOpenAccessProvider.import_backend, Option.bind_eq_bind, Option.bind_eq_some,
    Option.pure_def, Option.some.injEq] at h1
  obtain ⟨sqf1, hsqf1, rof1, hrof1, rod1, hrod1, t11, ht11, t21, ht21, tqf1, htqf1,
    tqd1, htqd1, hd1⟩ := h1
  subst hd1
  simp only [IBMOpenAccessFile.import_backend, Option.bind_eq_bind, Option.bind_eq_some,
    Option.pure_def, Option.some.injEq] at h2
  obtain ⟨sqf2, hsqf2, rof2, hrof2, rod2, hrod2, t12, ht12, t22, ht22, tqf2, htqf2,
    tqd2, htqd2, hd2⟩ := h2
  subst hd2
  obtain rfl := Option.some.inj (hsqf1.symm.trans hsqf2)
  obtain rfl := Option.some.inj (hrof1.symm.trans hrof2)
  obtain rfl := Option.some.inj (hrod1.symm.trans hrod2)
  obtain rfl := Option.some.inj (ht11.symm.trans ht12)
  obtain rfl := Option.some.inj (ht21.symm.trans ht22)
  obtain rfl := Option.some.inj (htqf1.symm.trans htqf2)
  exact ⟨rfl, rfl, rfl, rfl, rfl, rfl, rfl, rfl, rfl, rfl, rfl⟩

/-- Witness for the amended C10 at the synthetic open-access file. -/
theorem open_access_importers_agree_except_duration_witness :
    oaIbmDevice.name = oaFileDevice.name ∧
    oaIbmDevice.num_qubits = oaFileDevice.num_qubits ∧
    oaIbmDevice.basis_gates = oaFileDevice.basis_gates ∧
    oaIbmDevice.coupling_map = oaFileDevice.coupling_map ∧
    oaIbmDevice.calibration.t1 = oaFileDevice.calibration.t1 ∧
    oaIbmDevice.calibration.t2 = oaFileDevice.calibration.t2 ∧
    oaIbmDevice.calibration.readout_fidelity = oaFileDevice.calibration.readout_fidelity ∧
    oaIbmDevice.calibration.readout_duration = oaFileDevice.calibration.readout_duration ∧
    oaIbmDevice.calibration.single_qubit_gate_fidelity =
      oaFileDevice.calibration.single_qubit_gate_fidelity ∧
    oaIbmDevice.calibration.single_qubit_gate_duration =
      oaFileDevice.calibration.single_qubit_gate_duration ∧
    oaIbmDevice.calibration.two_qubit_gate_fidelity =
      oaFileDevice.calibration.two_qubit_gate_fidelity :=
  open_access_importers_agree_except_duration oaSampleFile oaIbmDevice oaFileDevice rfl rfl

/-- Counterexample for C10 as stated: on the synthetic open-access file the
two importers return different devices — their `ecr` durations on edge (0,1)
are `300e-9` (from `tECR`, ibm.py) versus `0.01e-9` (from `eECR`,
ibm_open_access.py). -/
theorem open_access_importers_differ :
    IBMOpenAccessProvider.import_backend oaSampleFile = some oaIbmDevice ∧
    IBMOpenAccessFile.import_backend oaSampleFile = some oaFileDevice ∧
    gateVal oaIbmDevice.calibration.two_qubit_gate_duration (0, 1) "ecr" =
      some (300 * (1/1000000000)) ∧
    gateVal oaFileDevice.calibration.two_qubit_gate_duration (0, 1) "ecr" =
      some ((1/100) * (1/1000000000)) ∧
    oaIbmDevice ≠ oaFileDevice := by
  have hv1 : gateVal oaIbmDevice.calibration.two_qubit_gate_duration (0, 1) "ecr" =
      some (300 * (1/1000000000)) := rfl
  have hv2 : gateVal oaFileDevice.calibration.two_qubit_gate_duration (0, 1) "ecr" =
      some ((1/100) * (1/1000000000)) := rfl
  refine ⟨rfl, rfl, hv1, hv2, fun hcontra => ?_⟩
  rw [hcontra, hv2] at hv1
  have hq := Option.some.inj hv1
  norm_num at hq

/-- **C2.** At a concrete open-access file with `eECR = 0.01` and `tECR = 300`
on edge (0,1), ibm_open_access.py's import stores the `ecr` duration
`0.01 × 1e-9` — the re-scaled error probability read from `eECR` — instead of
`300 × 1e-9` from `tECR`; ibm.py's sibling import stores `300 × 1e-9`. -/
theorem open_access_duration_from_error_field :
    oaProp0.tECR.lookup (edgeKey 0 1) = some 300 ∧
    oaProp0.eECR.lookup (edgeKey 0 1) = some (1/100) ∧
    IBMOpenAccessFile.import_backend oaSampleFile = some oaFileDevice ∧
    gateVal oaFileDevice.calibration.two_qubit_gate_duration (0, 1) "ecr" =
      some ((1/100) * (1/1000000000)) ∧
    gateVal oaFileDevice.calibration.two_qubit_gate_duration (0, 1) "ecr" ≠
      some (300 * (1/1000000000)) ∧
    IBMOpenAccessProvider.import_backend oaSampleFile = some oaIbmDevice ∧
    gateVal oaIbmDevice.calibration.two_qubit_gate_duration (0, 1) "ecr" =
      some (300 * (1/1000000000)) := by
  have hred : gateVal oaFileDevice.calibration.two_qubit_gate_duration (0, 1) "ecr" =
      some ((1/100) * (1/1000000000)) := rfl
  refine ⟨rfl, rfl, rfl, hred, fun hcontra => ?_, rfl, rfl⟩
  rw [hred] at hcontra
  have hq := Option.some.inj hcontra
  norm_num at hq

theorem noGateEntry_of_dictUpdate (g gname : String) (hne : gname ≠ g)
    (tbl tbl2 : List (Nat × List (String × ℚ))) (q : Nat) (w : ℚ)
    (h : dictUpdate tbl q (fun m => dictSet m gname w) = some tbl2)
    (htbl : ∀ e ∈ tbl, e.2.lookup g = none) :
    ∀ e ∈ tbl2, e.2.lookup g = none := by
  intro e he
  rcases dictUpdate_entries tbl tbl2 q _ h e he with hmem | ⟨m, hm, hval⟩
  · exact htbl e hmem
  · rw [hval, lookup_dictSet_ne m gname g w hne.symm]
    exact htbl (e.1, m) hm

theorem noGateEntry_of_dictUpdate_pair (g gname : String) (hne : gname ≠ g)
    (tbl tbl2 : List ((Nat × Nat) × List (String × ℚ))) (k : Nat × Nat) (w : ℚ)
    (h : dictUpdate tbl k (fun m => dictSet m gname w) = some tbl2)
    (htbl : ∀ e ∈ tbl, e.2.lookup g = none) :
    ∀ e ∈ tbl2, e.2.lookup g = none := by
  intro e he
  rcases dictUpdate_entries tbl tbl2 k _ h e he with hmem | ⟨m, hm, hval⟩
  · exact htbl e hmem
  · rw [hval, lookup_dictSet_ne m gname g w hne.symm]
    exact htbl (e.1, m) hm

theorem noGateEntry_of_dictSetNested (g gname : String) (hne : gname ≠ g)
    (tbl : List ((Nat × Nat) × List (String × ℚ))) (k : Nat × Nat) (w : ℚ)
    (htbl : ∀ e ∈ tbl, e.2.lookup g = none) :
    ∀ e ∈ dictSetNested tbl k gname w, e.2.lookup g = none := by
  intro e he
  rcases dictSetNested_entries tbl k gname w e he with hmem | ⟨m, hval, hm⟩
  · exact htbl e hmem
  · rw [hval, lookup_dictSet_ne m gname g w hne.symm]
    rcases hm with hm | rfl
    · exact htbl (e.1, m) hm
    · rfl

theorem gateStep_preserves_no_reset (cal cal2 : DeviceCalibration) (x : BPGate)
    (h : BaseIBMProvider.gateStep cal x = some cal2)
    (hcal : cal.noGateEntry "reset") : cal2.noGateEntry "reset" := by
  obtain ⟨h1, h2, h3, h4⟩ := hcal
  by_cases hreset : x.gate == "reset"
  · rw [BaseIBMProvider.gateStep, if_pos hreset] at h
    obtain rfl := Option.some.inj h
    exact ⟨h1, h2, h3, h4⟩
  · rw [BaseIBMProvider.gateStep, if_neg hreset] at h
    have hne : x.gate ≠ "reset" := by simpa using hreset
    rcases hxq : x.qubits with _ | ⟨q1, _ | ⟨q2, _ | rest⟩⟩ <;> rw [hxq] at h
    · obtain rfl := Option.some.inj h
      exact ⟨h1, h2, h3, h4⟩
    · simp only [Option.bind_eq_bind, Option.bind_eq_some, Option.pure_def,
        Option.some.injEq] at h
      obtain ⟨sqf2, hsqf2, sqd2, hsqd2, hcal2⟩ := h
      subst hcal2
      exact ⟨noGateEntry_of_dictUpdate _ _ hne _ _ _ _ hsqf2 h1,
        noGateEntry_of_dictUpdate _ _ hne _ _ _ _ hsqd2 h2, h3, h4⟩
    · obtain rfl := Option.some.inj h
      exact ⟨h1, h2, noGateEntry_of_dictSetNested _ _ hne _ _ _ h3,
        noGateEntry_of_dictSetNested _ _ hne _ _ _ h4⟩
    · obtain rfl := Option.some.inj h
      exact ⟨h1, h2, h3, h4⟩

theorem instructionStep_preserves_noGateEntry (g : String)
    (hg : g = "reset" ∨ g = "delay") (cal cal2 : DeviceCalibration)
    (ins : TargetInstruction) (h : BaseIBMProvider.instructionStep cal ins = some cal2)
    (hcal : cal.noGateEntry g) : cal2.noGateEntry g := by
  obtain ⟨h1, h2, h3, h4⟩ := hcal
  by_cases hskip : (ins.name == "reset" || ins.name == "delay") = true
  · rw [BaseIBMProvider.instructionStep, if_pos hskip] at h
    obtain rfl := Option.some.inj h
    exact ⟨h1, h2, h3, h4⟩
  · rw [BaseIBMProvider.instructionStep, if_neg hskip] at h
    have hne : ins.name ≠ g := by
      rcases hg with rfl | rfl <;> simp only [Bool.or_eq_true, beq_iff_eq] at hskip <;>
        [exact fun hc => hskip (Or.inl hc); exact fun hc => hskip (Or.inr hc)]
    simp only [Option.bind_eq_bind, Option.bind_eq_some, Option.pure_def,
      Option.some.injEq] at h
    obtain ⟨qubit, hqubit, h⟩ := h
    by_cases hmeasure : (ins.name == "measure") = true
    · rw [if_pos hmeasure] at h
      obtain rfl := Option.some.inj h
      exact ⟨h1, h2, h3, h4⟩
    · rw [if_neg hmeasure] at h
      rcases hxq : ins.qargs with _ | ⟨q1, _ | ⟨q2, _ | rest⟩⟩ <;> rw [hxq] at h
      · obtain rfl := Option.some.inj h
        exact ⟨h1, h2, h3, h4⟩
      · simp only [Option.bind_eq_bind, Option.bind_eq_some, Option.pure_def,
          Option.some.injEq] at h
        obtain ⟨sqf2, hsqf2, sqd2, hsqd2, hcal2⟩ := h
        subst hcal2
        exact ⟨noGateEntry_of_dictUpdate _ _ hne _ _ _ _ hsqf2 h1,
          noGateEntry_of_dictUpdate _ _ hne _ _ _ _ hsqd2 h2, h3, h4⟩
      · simp only [Option.bind_eq_bind, Option.bind_eq_some, Option.pure_def,
          Option.some.injEq] at h
        obtain ⟨tqf2, htqf2, tqd2, htqd2, hcal2⟩ := h
        subst hcal2
        exact ⟨h1, h2, noGateEntry_of_dictUpdate_pair _ _ hne _ _ _ _ htqf2 h3,
          noGateEntry_of_dictUpdate_pair _ _ hne _ _ _ _ htqd2 h4⟩
      · obtain rfl := Option.some.inj h
        exact ⟨h1, h2, h3, h4⟩

/-- **C8 (amended).** `import_target` records no calibration entry under the
gate names `reset` or `delay`; `import_backend_properties` skips only `reset`
— a `delay` operation present in `backend_properties.gates` is recorded (see
the counterexample). -/
theorem live_imports_skip_reset_delay :
    (∀ (bp : BackendProperties) (cal : DeviceCalibration),
      BaseIBMProvider.import_backend_properties bp = some cal →
      cal.noGateEntry "reset") ∧
    (∀ (t : Target) (cal : DeviceCalibration),
      BaseIBMProvider.import_target t = some cal →
      cal.noGateEntry "reset" ∧ cal.noGateEntry "delay") := by
  constructor
  · intro bp cal h
    simp only [BaseIBMProvider.import_backend_properties, Option.bind_eq_bind,
      Option.bind_eq_some, Option.pure_def, Option.some.injEq] at h
    obtain ⟨t1, ht1, t2, ht2, rof, hrof, rod, hrod, hfold⟩ := h
    refine @foldlM_option_inv _ _ (fun s => s.noGateEntry "reset") _ bp.gates _ cal hfold ?_ ?_
    · refine ⟨?_, ?_, ?_, ?_⟩ <;> intro e he <;> simp only [List.mem_map] at he <;>
        first
        | (obtain ⟨q, -, rfl⟩ := he; rfl)
        | simp at he
    · exact fun s x s2 _ hP hstep => gateStep_preserves_no_reset s s2 x hstep hP
  · intro t cal h
    simp only [BaseIBMProvider.import_target, Option.bind_eq_bind,
      Option.bind_eq_some, Option.pure_def, Option.some.injEq] at h
    obtain ⟨t1, ht1, t2, ht2, hfold⟩ := h
    constructor
    · refine @foldlM_option_inv _ _ (fun s => s.noGateEntry "reset") _ t.instructions _ cal
        hfold ?_ ?_
      · refine ⟨?_, ?_, ?_, ?_⟩ <;> intro e he <;> simp only [List.mem_map] at he <;>
          (obtain ⟨q, -, rfl⟩ := he; rfl)
      · exact fun s x s2 _ hP hstep =>
          instructionStep_preserves_noGateEntry "reset" (Or.inl rfl) s s2 x hstep hP
    · refine @foldlM_option_inv _ _ (fun s => s.noGateEntry "delay") _ t.instructions _ cal
        hfold ?_ ?_
      · refine ⟨?_, ?_, ?_, ?_⟩ <;> intro e he <;> simp only [List.mem_map] at he <;>
          (obtain ⟨q, -, rfl⟩ := he; rfl)
      · exact fun s x s2 _ hP hstep =>
          instructionStep_preserves_noGateEntry "delay" (Or.inr rfl) s s2 x hstep hP

/-- Counterexample for C8 as stated: `import_backend_properties` does record a
1-qubit `delay` operation — at `bpDelaySample` the returned calibration holds
a `delay` fidelity and duration for qubit 0. -/
theorem import_backend_properties_records_delay :
    BaseIBMProvider.import_backend_properties bpDelaySample = some bpDelayCal ∧
    gateVal bpDelayCal.single_qubit_gate_fidelity 0 "delay" = some (1 - 1/1000) ∧
    gateVal bpDelayCal.single_qubit_gate_duration 0 "delay" = some (1/100000) :=
  ⟨rfl, rfl, rfl⟩

/-- Witness for the amended C8 at the concrete live objects. -/
theorem live_imports_skip_reset_delay_witness :
    bpDelayCal.noGateEntry "reset" ∧ targetSampleCal.noGateEntry "reset" ∧
    targetSampleCal.noGateEntry "delay" :=
  ⟨live_imports_skip_reset_delay.1 bpDelaySample bpDelayCal rfl,
   (live_imports_skip_reset_delay.2 targetSample targetSampleCal rfl).1,
   (live_imports_skip_reset_delay.2 targetSample targetSampleCal rfl).2⟩
